import Mathlib

/-!
Shallow embedding of the gbstats statistical core:
`packages/stats/gbstats/frequentist/tests.py` (frequentist and sequential
t-tests) and `packages/stats/gbstats/utils.py` (ratio variance, SRM
chi-squared check).

Modelling conventions:
- Python floats are modelled by real numbers `ℝ`; the SRM check, whose
  inputs are integer counts and float weights and whose only external call
  is the chi-squared survival function, is modelled over `ℤ`/`ℚ` so that it
  is computable.
- External special functions from scipy (`t.cdf`, `chi2.sf`) are taken as
  explicit function parameters of the definitions that call them.
- Python `/` raises `ZeroDivisionError` on a zero denominator.  Where a
  denominator is not guarded by the code itself — the two divisions of
  `scale_result` (`pydiv : ℝ → ℝ → Option ℝ`) and the two divisions inside
  the `check_srm` loop (`qdiv : ℚ → ℚ → Option ℚ`) — division is modelled
  fallibly and the failure propagates as `none`; everywhere else the
  denominators are guarded by the code's own checks (or by the data-model
  invariant `n ≥ 1`) and total field division is used.
- `TTest` is an abstract base class: `compute_result` calls the subclass
  properties `confidence_interval` and `p_value`.  The embedding of
  `compute_result` therefore takes the values of those two properties as
  parameters `ci` and `pv`.
-/

/-- Modelled from the spec: diagnostic message constant
`BASELINE_VARIATION_ZERO_MESSAGE` from `gbstats.messages` (module not under
src/); the spec calls it the "baseline is zero" diagnostic.  Its exact text
is irrelevant; it only needs to be a fixed string distinct from the other
two message constants. -/
def BASELINE_VARIATION_ZERO_MESSAGE : String := "baseline variation is zero"

/-- Modelled from the spec: diagnostic message constant
`ZERO_NEGATIVE_VARIANCE_MESSAGE` from `gbstats.messages` (module not under
src/); the spec calls it the "zero/negative variance" diagnostic. -/
def ZERO_NEGATIVE_VARIANCE_MESSAGE : String := "zero or negative variance"

/-- Modelled from the spec: diagnostic message constant
`ZERO_SCALED_VARIATION_MESSAGE` from `gbstats.messages` (module not under
src/); the spec calls it the "zero scaled variation" diagnostic. -/
def ZERO_SCALED_VARIATION_MESSAGE : String := "zero scaled variation"

/-- Modelled from the spec (the `TestStatistic` class of
`gbstats.models.statistics` is not under src/): semantic fields of a
per-arm statistic as §3 of the spec lists them — `mean`, `unadjusted_mean`
(raw mean, relative-effect denominator), `variance`, sample size `n`. -/
structure TestStatistic where
  mean : ℝ
  unadjusted_mean : ℝ
  variance : ℝ
  n : ℝ

/-- Modelled from the spec (`BaseConfig` of `gbstats.models.tests` is not
under src/, `FrequentistConfig` of `tests.py` extends it): `alpha`,
`test_value` from `FrequentistConfig`; `difference_type` (a string, one of
"absolute", "relative", "scaled"), `traffic_proportion_b` and
`phase_length_days` from `BaseConfig`, exactly the fields `TTest.__init__`
reads off the config. -/
structure FrequentistConfig where
  alpha : ℝ
  test_value : ℝ
  difference_type : String
  traffic_proportion_b : ℝ
  phase_length_days : ℝ

/-- Embedding of `SequentialConfig(FrequentistConfig)`: adds
`sequential_tuning_parameter`. -/
structure SequentialConfig extends FrequentistConfig where
  sequential_tuning_parameter : ℝ

/-- Embedding of the `Uplift` record of `gbstats.models.tests` (not under
src/, but fully determined by its three construction sites in `tests.py`:
`dist`, `mean`, `stddev`). -/
structure Uplift where
  dist : String
  mean : ℝ
  stddev : ℝ

/-- Embedding of `FrequentistTestResult(TestResult)`: point estimate
`expected`, two-sided confidence interval `ci` (a pair, matching the
two-element lists the code builds), `p_value`, `uplift`, optional
`error_message` (default `None`). -/
structure FrequentistTestResult where
  expected : ℝ
  ci : ℝ × ℝ
  p_value : ℝ
  uplift : Uplift
  error_message : Option String

/-- Embedding of `variance_of_ratios` from `gbstats/utils.py`: delta-method
variance of M/D. -/
noncomputable def variance_of_ratios (mean_m var_m mean_d var_d cov_m_d : ℝ) : ℝ :=
  var_m / mean_d ^ 2 + var_d * mean_m ^ 2 / mean_d ^ 4
    - 2 * cov_m_d * mean_m / mean_d ^ 3

/-- Embedding of `frequentist_diff` from `tests.py`.  The Python default
`mean_a_unadjusted=None` and the falsy test `if not mean_a_unadjusted` are
modelled by an `Option ℝ` argument: `none` (absent) and `some 0` (falsy
float) both fall back to `mean_a`. -/
noncomputable def frequentist_diff (mean_a mean_b : ℝ) (relative : Bool)
    (mean_a_unadjusted : Option ℝ) : ℝ :=
  let mau : ℝ :=
    match mean_a_unadjusted with
    | none => mean_a
    | some x => if x = 0 then mean_a else x
  if relative then (mean_b - mean_a) / mau else mean_b - mean_a

/-- Embedding of `frequentist_variance` from `tests.py`. -/
noncomputable def frequentist_variance (var_a mean_a n_a var_b mean_b n_b : ℝ)
    (relative : Bool) : ℝ :=
  if relative then variance_of_ratios mean_b (var_b / n_b) mean_a (var_a / n_a) 0
  else var_b / n_b + var_a / n_a

/-- Embedding of `self.relative = config.difference_type == "relative"` in
`TTest.__init__`. -/
def TTest.relative (c : FrequentistConfig) : Bool :=
  c.difference_type == "relative"

/-- Embedding of `self.scaled = config.difference_type == "scaled"` in
`TTest.__init__`. -/
def TTest.scaled (c : FrequentistConfig) : Bool :=
  c.difference_type == "scaled"

/-- Embedding of the `TTest.variance` property: `frequentist_variance`
applied to the two arms' variances, *unadjusted* means and sample sizes. -/
noncomputable def TTest.variance (a b : TestStatistic) (c : FrequentistConfig) : ℝ :=
  frequentist_variance a.variance a.unadjusted_mean a.n
    b.variance b.unadjusted_mean b.n (TTest.relative c)

/-- Embedding of the `TTest.point_estimate` property: `frequentist_diff`
on the arms' means, with `stat_a.unadjusted_mean` passed for the optional
`mean_a_unadjusted`. -/
noncomputable def TTest.point_estimate (a b : TestStatistic) (c : FrequentistConfig) : ℝ :=
  frequentist_diff a.mean b.mean (TTest.relative c) (some a.unadjusted_mean)

/-- Embedding of the `TTest.critical_value` property. -/
noncomputable def TTest.critical_value (a b : TestStatistic) (c : FrequentistConfig) : ℝ :=
  (TTest.point_estimate a b c - c.test_value) / Real.sqrt (TTest.variance a b c)

/-- Embedding of the `TTest.dof` property (Welch–Satterthwaite). -/
noncomputable def TTest.dof (a b : TestStatistic) : ℝ :=
  (b.variance / b.n + a.variance / a.n) ^ 2 /
    (b.variance ^ 2 / (b.n ^ 2 * (b.n - 1)) + a.variance ^ 2 / (a.n ^ 2 * (a.n - 1)))

/-- Modelled from the spec (`BaseABTest._has_zero_variance` of
`gbstats.models.tests` is not under src/): "If variance is zero or negative
for either arm". -/
def has_zero_variance (a b : TestStatistic) : Prop :=
  a.variance ≤ 0 ∨ b.variance ≤ 0

/-- Embedding of `TTest._default_output`: the uninformative result. -/
def default_output (error_message : Option String) : FrequentistTestResult :=
  ⟨0, (0, 0), 1, ⟨"normal", 0, 0⟩, error_message⟩

/-- Python float division: `a / b` raises `ZeroDivisionError` when `b = 0`,
modelled as `none`. -/
noncomputable def pydiv (a b : ℝ) : Option ℝ :=
  if b = 0 then none else some (a / b)

/-- Embedding of `TTest.scale_result`: guard `p == 0`, then
`adjustment = self.stat_b.n / p / d` (two Python divisions, each fallible),
then every field except `p_value` multiplied by `adjustment`. -/
noncomputable def scale_result (n_b : ℝ) (result : FrequentistTestResult)
    (p d : ℝ) : Option FrequentistTestResult :=
  if p = 0 then some (default_output (some ZERO_SCALED_VARIATION_MESSAGE))
  else
    match pydiv n_b p with
    | none => none
    | some q =>
      match pydiv q d with
      | none => none
      | some adjustment =>
        some ⟨result.expected * adjustment,
          (result.ci.1 * adjustment, result.ci.2 * adjustment),
          result.p_value,
          ⟨result.uplift.dist, result.uplift.mean * adjustment,
            result.uplift.stddev * adjustment⟩,
          none⟩

/-- Embedding of `TTest.compute_result`.  `ci` and `pv` are the values of
the abstract subclass properties `confidence_interval` and `p_value` (the
branch that uses them is only reached after all degeneracy guards pass).
The result is `none` exactly when the Python code would raise
(`ZeroDivisionError` inside `scale_result`). -/
noncomputable def compute_result (a b : TestStatistic) (c : FrequentistConfig)
    (ci : ℝ × ℝ) (pv : ℝ) : Option FrequentistTestResult :=
  if a.mean = 0 then some (default_output (some BASELINE_VARIATION_ZERO_MESSAGE))
  else if a.unadjusted_mean = 0 then
    some (default_output (some BASELINE_VARIATION_ZERO_MESSAGE))
  else if a.variance ≤ 0 ∨ b.variance ≤ 0 then
    some (default_output (some ZERO_NEGATIVE_VARIANCE_MESSAGE))
  else
    let result : FrequentistTestResult :=
      ⟨TTest.point_estimate a b c, ci, pv,
        ⟨"normal", TTest.point_estimate a b c, Real.sqrt (TTest.variance a b c)⟩,
        none⟩
    if TTest.scaled c then
      scale_result b.n result c.traffic_proportion_b c.phase_length_days
    else some result

/-- Embedding of the `TwoSidedTTest.p_value` property:
`2 * (1 - t.cdf(abs(critical_value), dof))`.  The scipy Student-t CDF
`t.cdf` is the explicit parameter `tcdf` (argument, then degrees of
freedom). -/
noncomputable def TwoSidedTTest.p_value (tcdf : ℝ → ℝ → ℝ)
    (a b : TestStatistic) (c : FrequentistConfig) : ℝ :=
  2 * (1 - tcdf |TTest.critical_value a b c| (TTest.dof a b))

/-- Embedding of the `OneSidedTreatmentGreaterTTest.p_value` property:
`1 - t.cdf(critical_value, dof)`. -/
noncomputable def OneSidedTreatmentGreaterTTest.p_value (tcdf : ℝ → ℝ → ℝ)
    (a b : TestStatistic) (c : FrequentistConfig) : ℝ :=
  1 - tcdf (TTest.critical_value a b c) (TTest.dof a b)

/-- Embedding of the `OneSidedTreatmentLesserTTest.p_value` property:
`t.cdf(critical_value, dof)`. -/
noncomputable def OneSidedTreatmentLesserTTest.p_value (tcdf : ℝ → ℝ → ℝ)
    (a b : TestStatistic) (c : FrequentistConfig) : ℝ :=
  tcdf (TTest.critical_value a b c) (TTest.dof a b)

/-- Embedding of the `SequentialTwoSidedTTest.rho` property:
`sqrt((-2*log(alpha) + log(-2*log(alpha) + 1)) / sequential_tuning_parameter)`. -/
noncomputable def SequentialTwoSidedTTest.rho (alpha tuning : ℝ) : ℝ :=
  Real.sqrt ((-2 * Real.log alpha + Real.log (-2 * Real.log alpha + 1)) / tuning)

/-- Embedding of the `SequentialTwoSidedTTest.confidence_interval` property
(eq. 9 of Waudby-Smith et al. 2023 as the code cites it):
`N = n_a + n_b`, `s2 = variance * N`,
`width = sqrt(s2) * sqrt(2*(N*rho^2+1) * log(sqrt(N*rho^2+1)/alpha) / (N*rho)^2)`,
interval `point_estimate ± width`.  The sequential engine runs the base
`TTest` machinery on the `FrequentistConfig` part of its config. -/
noncomputable def SequentialTwoSidedTTest.confidence_interval
    (a b : TestStatistic) (c : SequentialConfig) : ℝ × ℝ :=
  let N : ℝ := a.n + b.n
  let rho : ℝ := SequentialTwoSidedTTest.rho c.alpha c.sequential_tuning_parameter
  let s2 : ℝ := TTest.variance a b c.toFrequentistConfig * N
  let width : ℝ := Real.sqrt s2 *
    Real.sqrt ((2 * (N * rho ^ 2 + 1)) *
      Real.log (Real.sqrt (N * rho ^ 2 + 1) / c.alpha) / (N * rho) ^ 2)
  (TTest.point_estimate a b c.toFrequentistConfig - width,
    TTest.point_estimate a b c.toFrequentistConfig + width)

/-- Embedding of the `SequentialTwoSidedTTest.p_value` property (eq. 155 of
the cited paper): `st2 = (point_estimate - test_value)^2 * N / variance`,
`tr2p1 = N*rho^2 + 1`, `evalue = exp(rho^2*st2 / (2*tr2p1)) / sqrt(tr2p1)`,
p-value `min(1/evalue, 1)`. -/
noncomputable def SequentialTwoSidedTTest.p_value
    (a b : TestStatistic) (c : SequentialConfig) : ℝ :=
  let N : ℝ := a.n + b.n
  let rho : ℝ := SequentialTwoSidedTTest.rho c.alpha c.sequential_tuning_parameter
  let st2 : ℝ := (TTest.point_estimate a b c.toFrequentistConfig - c.test_value) ^ 2
    * N / TTest.variance a b c.toFrequentistConfig
  let tr2p1 : ℝ := N * rho ^ 2 + 1
  let evalue : ℝ := Real.exp (rho ^ 2 * st2 / (2 * tr2p1)) / Real.sqrt tr2p1
  min (1 / evalue) 1

/-- Python rational division inside the SRM check: `a / b` raises
`ZeroDivisionError` when `b = 0`, modelled as `none` (the `ℚ` counterpart
of `pydiv`). -/
def qdiv (a b : ℚ) : Option ℚ :=
  if b = 0 then none else some (a / b)

/-- The chi-squared accumulation loop of `check_srm` in `gbstats/utils.py`:
`for i, o in enumerate(users): if weights[i] <= 0: continue;
e = weights[i] / total_weight * total_observed; x = x + ((o - e) ** 2) / e`.
Each of the two Python divisions is fallible (`weights[i] / total_weight`
raises when the weights sum to 0, `((o - e) ** 2) / e` when `e = 0`); a
raise anywhere in the loop aborts the whole call, modelled by `none`. -/
def srm_chi2_sum (total_weight total_observed : ℚ) :
    List (ℤ × ℚ) → Option ℚ
  | [] => some 0
  | (o, w) :: rest =>
    if w ≤ 0 then srm_chi2_sum total_weight total_observed rest
    else
      match qdiv w total_weight with
      | none => none
      | some r =>
        match qdiv (((o : ℚ) - r * total_observed) ^ 2) (r * total_observed) with
        | none => none
        | some term =>
          match srm_chi2_sum total_weight total_observed rest with
          | none => none
          | some x => some (term + x)

/-- Embedding of `check_srm` from `gbstats/utils.py`.  Observed user counts
are Python ints (`List ℤ`), weights Python floats (`List ℚ`; every float is
a rational).  The external chi-squared survival function `chi2.sf` is the
parameter `chi2_sf` (statistic, then degrees of freedom); the code calls it
with `len(users) - 1` degrees of freedom.  The loop pairs `users[i]` with
`weights[i]`, modelled by `List.zip` (callers pass lists of equal length).
The result is `none` exactly when the Python code would raise
`ZeroDivisionError` inside the loop. -/
def check_srm (chi2_sf : ℚ → ℕ → ℚ) (users : List ℤ) (weights : List ℚ) :
    Option ℚ :=
  if users.sum = 0 then some 1
  else
    match srm_chi2_sum weights.sum (users.sum : ℚ) (users.zip weights) with
    | none => none
    | some x => some (chi2_sf x (users.length - 1))

/-- Helper: on every input where the loop completes — total weight nonzero,
or every paired weight nonpositive (then no division is ever attempted) —
the accumulated chi-squared statistic is the sum over the positive-weight
arms only, each contributing the raw `((o - e)^2)/e` term; arms with
weight at most 0 contribute nothing. -/
theorem srm_chi2_sum_eq_filtered (tw tot : ℚ) (htot : tot ≠ 0)
    (l : List (ℤ × ℚ)) (h : tw ≠ 0 ∨ ∀ p ∈ l, p.2 ≤ 0) :
    srm_chi2_sum tw tot l =
      some (((l.filter (fun p => decide (0 < p.2))).map
        (fun p => ((p.1 : ℚ) - p.2 / tw * tot) ^ 2 / (p.2 / tw * tot))).sum) := by
  induction l with
  | nil => rfl
  | cons hd tl ih =>
    obtain ⟨o, w⟩ := hd
    by_cases hw : w ≤ 0
    · have h' : tw ≠ 0 ∨ ∀ p ∈ tl, p.2 ≤ 0 := by
        rcases h with h | h
        · exact Or.inl h
        · exact Or.inr fun p hp => h p (List.mem_cons_of_mem _ hp)
      have hh : ¬ (0 < w) := not_lt.mpr hw
      rw [srm_chi2_sum, if_pos hw, ih h']
      simp [List.filter_cons, hh]
    · have hwpos : 0 < w := lt_of_not_le hw
      have htw : tw ≠ 0 := by
        rcases h with h | h
        · exact h
        · exact absurd (h (o, w) (List.mem_cons_self _ _)) hw
      have he : w / tw * tot ≠ 0 :=
        mul_ne_zero (div_ne_zero (ne_of_gt hwpos) htw) htot
      simp only [srm_chi2_sum, if_neg hw, qdiv, if_neg htw, if_neg he,
        ih (Or.inl htw)]
      simp [List.filter_cons, hwpos]

/-- Claim C6: for every list of observed counts whose sum is 0, `check_srm`
returns exactly 1 (no exception), for every list of expected weights and
every chi-squared survival function. -/
theorem claim_C6_check_srm_zero_total (chi2_sf : ℚ → ℕ → ℚ)
    (users : List ℤ) (weights : List ℚ) (h : users.sum = 0) :
    check_srm chi2_sf users weights = some 1 := by
  simp [check_srm, h]

/-- Witness for claim C6 at a concrete input. -/
theorem claim_C6_witness :
    (([0, 0] : List ℤ).sum = 0) ∧
      check_srm (fun _ _ => 0) [0, 0] [1, 2] = some 1 :=
  ⟨by decide, claim_C6_check_srm_zero_total (fun _ _ => 0) [0, 0] [1, 2] (by decide)⟩

/-- Claim C7: on every call with nonzero total observed count that returns
(total weight nonzero, or every weight nonpositive — otherwise the loop's
`weights[i] / total_weight` raises), `check_srm` passes to the chi-squared
survival function a statistic in which every index with weight at most 0 is
skipped (the sum runs over the positive-weight arms only), and degrees of
freedom `users.length - 1`, counting skipped arms. -/
theorem claim_C7_check_srm_skip_and_dof (chi2_sf : ℚ → ℕ → ℚ)
    (users : List ℤ) (weights : List ℚ) (h : users.sum ≠ 0)
    (hw : weights.sum ≠ 0 ∨ ∀ p ∈ users.zip weights, p.2 ≤ 0) :
    check_srm chi2_sf users weights =
      some (chi2_sf
        ((((users.zip weights).filter (fun p => decide (0 < p.2))).map
          (fun p => ((p.1 : ℚ) - p.2 / weights.sum * (users.sum : ℚ)) ^ 2
            / (p.2 / weights.sum * (users.sum : ℚ)))).sum)
        (users.length - 1)) := by
  have htot : (users.sum : ℚ) ≠ 0 := Int.cast_ne_zero.mpr h
  simp only [check_srm, if_neg h,
    srm_chi2_sum_eq_filtered weights.sum ((users.sum : ℤ) : ℚ) htot
      (users.zip weights) hw]

/-- Witness for claim C7 at a concrete input (second arm has weight 0 and
is skipped; degrees of freedom still count it; total weight is nonzero so
the call returns). -/
theorem claim_C7_witness :
    (([3, 4] : List ℤ).sum ≠ 0) ∧
    (([1, 0] : List ℚ).sum ≠ 0 ∨
      ∀ p ∈ ([3, 4] : List ℤ).zip ([1, 0] : List ℚ), p.2 ≤ 0) ∧
      check_srm (fun x _ => x) [3, 4] [1, 0] =
        some ((((([3, 4] : List ℤ).zip ([1, 0] : List ℚ)).filter
            (fun p => decide (0 < p.2))).map
          (fun p => ((p.1 : ℚ) - p.2 / ([1, 0] : List ℚ).sum * ((([3, 4] : List ℤ).sum : ℤ) : ℚ)) ^ 2
            / (p.2 / ([1, 0] : List ℚ).sum * ((([3, 4] : List ℤ).sum : ℤ) : ℚ)))).sum) :=
  ⟨by decide, Or.inl (by norm_num),
    claim_C7_check_srm_skip_and_dof (fun x _ => x) [3, 4] [1, 0] (by decide)
      (Or.inl (by norm_num))⟩

/-- Claim C10: `frequentist_diff` treats a falsy unadjusted baseline mean
(exactly 0, or absent) as no adjustment provided and substitutes `mean_a`
as the relative denominator, so for nonzero `mean_a` both give
`(mean_b - mean_a) / mean_a`; an adjusted mean of exactly 0 is
indistinguishable from an absent adjustment at this interface. -/
theorem claim_C10_falsy_unadjusted_mean (mean_a mean_b : ℝ) (h : mean_a ≠ 0) :
    frequentist_diff mean_a mean_b true (some 0) = (mean_b - mean_a) / mean_a ∧
    frequentist_diff mean_a mean_b true none = (mean_b - mean_a) / mean_a ∧
    ∀ relative : Bool,
      frequentist_diff mean_a mean_b relative (some 0) =
        frequentist_diff mean_a mean_b relative none := by
  refine ⟨by simp [frequentist_diff], by simp [frequentist_diff], ?_⟩
  intro relative
  simp [frequentist_diff]

/-- Witness for claim C10 at a concrete input. -/
theorem claim_C10_witness :
    ((2 : ℝ) ≠ 0) ∧
      (frequentist_diff 2 7 true (some 0) = ((7 : ℝ) - 2) / 2 ∧
       frequentist_diff 2 7 true none = ((7 : ℝ) - 2) / 2 ∧
       ∀ relative : Bool,
         frequentist_diff 2 7 relative (some 0) =
           frequentist_diff (2 : ℝ) 7 relative none) :=
  ⟨by norm_num, claim_C10_falsy_unadjusted_mean 2 7 (by norm_num)⟩

/-- Claim C3: whenever `stat_a.mean = 0` or `stat_a.unadjusted_mean = 0`,
`compute_result` returns (raising no exception) the default result with
expected 0, ci (0, 0), p-value 1, uplift mean 0 and stddev 0, and the
baseline-is-zero diagnostic message set. -/
theorem claim_C3_baseline_zero_default (a b : TestStatistic)
    (c : FrequentistConfig) (ci : ℝ × ℝ) (pv : ℝ)
    (h : a.mean = 0 ∨ a.unadjusted_mean = 0) :
    compute_result a b c ci pv =
      some ⟨0, (0, 0), 1, ⟨"normal", 0, 0⟩,
        some BASELINE_VARIATION_ZERO_MESSAGE⟩ := by
  rcases h with h | h
  · simp [compute_result, h, default_output]
  · by_cases hm : a.mean = 0
    · simp [compute_result, hm, default_output]
    · simp [compute_result, hm, h, default_output]

/-- Witness for claim C3 at the spec's degenerate-baseline scenario
(`stat_a.mean = 0`, `stat_a.unadjusted_mean = 5`, relative difference). -/
theorem claim_C3_witness :
    ((⟨0, 5, 1, 10⟩ : TestStatistic).mean = 0 ∨
      (⟨0, 5, 1, 10⟩ : TestStatistic).unadjusted_mean = 0) ∧
    compute_result ⟨0, 5, 1, 10⟩ ⟨1, 1, 1, 10⟩ ⟨1 / 20, 0, "relative", 0, 0⟩
        (1, 2) (1 / 2) =
      some ⟨0, (0, 0), 1, ⟨"normal", 0, 0⟩,
        some BASELINE_VARIATION_ZERO_MESSAGE⟩ :=
  ⟨Or.inl rfl,
    claim_C3_baseline_zero_default _ _ _ _ _ (Or.inl rfl)⟩

/-- Counterexample to claim C1 as stated: with relative difference type,
the pooled variance is the ratio variance at the arms' *unadjusted* means
(here 3 and 2), not at the arms' means (here both 1): the right-hand side
is `varianceOfRatios(meanB, varB/nB, meanA, varA/nA, 0)` at those means
and differs from the code's pooled variance. -/
theorem claim_C1_counterexample :
    TTest.variance ⟨1, 2, 1, 1⟩ ⟨1, 3, 1, 1⟩ ⟨1 / 20, 0, "relative", 0, 0⟩ ≠
      variance_of_ratios 1 (1 / 1) 1 (1 / 1) 0 := by
  norm_num [TTest.variance, frequentist_variance, variance_of_ratios, TTest.relative]

/-- Claim C1 (amended): with relative difference type the pooled variance
equals `varianceOfRatios` applied to
(unadjustedMeanB, varB/nB, unadjustedMeanA, varA/nA, 0); with absolute or
scaled difference type it equals `varB/nB + varA/nA`. -/
theorem claim_C1_pooled_variance (a b : TestStatistic) (c : FrequentistConfig) :
    (c.difference_type = "relative" →
      TTest.variance a b c =
        variance_of_ratios b.unadjusted_mean (b.variance / b.n)
          a.unadjusted_mean (a.variance / a.n) 0) ∧
    (c.difference_type = "absolute" ∨ c.difference_type = "scaled" →
      TTest.variance a b c = b.variance / b.n + a.variance / a.n) := by
  constructor
  · intro hd
    have hrel : TTest.relative c = true := by
      unfold TTest.relative
      rw [hd]
      decide
    simp [TTest.variance, frequentist_variance, hrel]
  · rintro (hd | hd) <;>
    · have hrel : TTest.relative c = false := by
        unfold TTest.relative
        rw [hd]
        decide
      simp [TTest.variance, frequentist_variance, hrel]

/-- Witness for (amended) claim C1 at concrete inputs, one per branch. -/
theorem claim_C1_witness :
    ((⟨1 / 20, 0, "relative", 0, 0⟩ : FrequentistConfig).difference_type = "relative" ∧
      TTest.variance ⟨1, 2, 1, 4⟩ ⟨1, 3, 2, 5⟩ ⟨1 / 20, 0, "relative", 0, 0⟩ =
        variance_of_ratios (3 : ℝ) (2 / 5) 2 (1 / 4) 0) ∧
    ((⟨1 / 20, 0, "absolute", 0, 0⟩ : FrequentistConfig).difference_type = "absolute" ∨
        (⟨1 / 20, 0, "absolute", 0, 0⟩ : FrequentistConfig).difference_type = "scaled") ∧
      TTest.variance ⟨1, 2, 1, 4⟩ ⟨1, 3, 2, 5⟩ ⟨1 / 20, 0, "absolute", 0, 0⟩ =
        (2 : ℝ) / 5 + 1 / 4 :=
  ⟨⟨rfl, (claim_C1_pooled_variance ⟨1, 2, 1, 4⟩ ⟨1, 3, 2, 5⟩ _).1 rfl⟩,
    ⟨Or.inl rfl, (claim_C1_pooled_variance ⟨1, 2, 1, 4⟩ ⟨1, 3, 2, 5⟩ _).2 (Or.inl rfl)⟩⟩

/-- Counterexample to claim C2 as stated: an input with
`stat_a.variance = 0` whose result does *not* carry the zero/negative
variance diagnostic — the baseline-mean guard fires first, so the result
carries the baseline-is-zero diagnostic instead (the means do matter). -/
theorem claim_C2_counterexample :
    compute_result ⟨0, 5, 0, 10⟩ ⟨1, 1, 1, 10⟩ ⟨1 / 20, 0, "relative", 0, 0⟩
        (1, 2) (1 / 2) =
      some (default_output (some BASELINE_VARIATION_ZERO_MESSAGE)) ∧
    BASELINE_VARIATION_ZERO_MESSAGE ≠ ZERO_NEGATIVE_VARIANCE_MESSAGE := by
  constructor
  · simp [compute_result]
  · decide

/-- Claim C2 (amended): provided the baseline-mean guards pass
(`stat_a.mean ≠ 0` and `stat_a.unadjusted_mean ≠ 0`), a zero or negative
variance in either arm makes `compute_result` return the default
uninformative result carrying the zero/negative-variance diagnostic,
regardless of the (nonzero) means. -/
theorem claim_C2_zero_variance_default (a b : TestStatistic)
    (c : FrequentistConfig) (ci : ℝ × ℝ) (pv : ℝ)
    (hm : a.mean ≠ 0) (hu : a.unadjusted_mean ≠ 0)
    (hv : has_zero_variance a b) :
    compute_result a b c ci pv =
      some (default_output (some ZERO_NEGATIVE_VARIANCE_MESSAGE)) := by
  rcases hv with h | h <;> simp [compute_result, hm, hu, h]

/-- Witness for (amended) claim C2 at a concrete input with
`stat_a.variance = 0`. -/
theorem claim_C2_witness :
    ((⟨1, 1, 0, 10⟩ : TestStatistic).mean ≠ 0) ∧
    ((⟨1, 1, 0, 10⟩ : TestStatistic).unadjusted_mean ≠ 0) ∧
    has_zero_variance ⟨1, 1, 0, 10⟩ ⟨2, 2, 1, 10⟩ ∧
    compute_result ⟨1, 1, 0, 10⟩ ⟨2, 2, 1, 10⟩ ⟨1 / 20, 0, "absolute", 0, 0⟩
        (1, 2) (1 / 2) =
      some (default_output (some ZERO_NEGATIVE_VARIANCE_MESSAGE)) :=
  ⟨by norm_num, by norm_num, Or.inl (by norm_num),
    claim_C2_zero_variance_default _ _ _ _ _ (by norm_num) (by norm_num)
      (Or.inl (by norm_num))⟩

/-- Counterexample to claim C4 as stated: with `trafficProportionB = 1 ≠ 0`
but `phaseLengthDays = 0`, `scale_result` does not return a scaled result —
the division `nB / trafficProportionB / phaseLengthDays` divides by zero
(Python raises `ZeroDivisionError`, modelled as `none`). -/
theorem claim_C4_counterexample :
    scale_result 1000 ⟨3, (1, 2), 5, ⟨"normal", 3, 7⟩, none⟩ 1 0 = none := by
  simp [scale_result, pydiv]

/-- Claim C4 (amended): in the scaled-effect path the default result tagged
with the zero-scaled-variation diagnostic is returned exactly when
`trafficProportionB = 0`; for `trafficProportionB ≠ 0` and
`phaseLengthDays ≠ 0` the division `nB / trafficProportionB /
phaseLengthDays` is performed and a scaled, non-default result (no error
message) is returned; for `trafficProportionB ≠ 0` and
`phaseLengthDays = 0` the division raises (no result). -/
theorem claim_C4_scale_guard (n_b : ℝ) (r : FrequentistTestResult) (p d : ℝ) :
    (p = 0 →
      scale_result n_b r p d =
        some (default_output (some ZERO_SCALED_VARIATION_MESSAGE))) ∧
    (p ≠ 0 → d = 0 → scale_result n_b r p d = none) ∧
    (p ≠ 0 → d ≠ 0 →
      scale_result n_b r p d =
        some ⟨r.expected * (n_b / p / d),
          (r.ci.1 * (n_b / p / d), r.ci.2 * (n_b / p / d)),
          r.p_value,
          ⟨r.uplift.dist, r.uplift.mean * (n_b / p / d),
            r.uplift.stddev * (n_b / p / d)⟩,
          none⟩) := by
  refine ⟨fun hp => by simp [scale_result, hp], ?_, ?_⟩
  · intro hp hd
    simp [scale_result, pydiv, hp, hd]
  · intro hp hd
    simp [scale_result, pydiv, hp, hd]

/-- Witness for (amended) claim C4 at a concrete input. -/
theorem claim_C4_witness :
    ((2 : ℝ) ≠ 0) ∧ ((4 : ℝ) ≠ 0) ∧
    scale_result 1000 ⟨3, (1, 2), 5, ⟨"normal", 3, 7⟩, none⟩ 2 4 =
      some ⟨3 * ((1000 : ℝ) / 2 / 4),
        (1 * ((1000 : ℝ) / 2 / 4), 2 * ((1000 : ℝ) / 2 / 4)), 5,
        ⟨"normal", 3 * ((1000 : ℝ) / 2 / 4), 7 * ((1000 : ℝ) / 2 / 4)⟩,
        none⟩ :=
  ⟨by norm_num, by norm_num,
    (claim_C4_scale_guard 1000 ⟨3, (1, 2), 5, ⟨"normal", 3, 7⟩, none⟩ 2 4).2.2
      (by norm_num) (by norm_num)⟩

/-- Claim C5: for every non-degenerate input (nonzero baseline means,
positive variances, nonzero traffic proportion and phase length) with
scaled difference type, `compute_result` returns the unscaled result with
`expected`, both confidence-interval bounds, uplift mean and uplift stddev
each multiplied by `adjustment = nB / trafficProportionB / phaseLengthDays`
while `p_value` is identical to the unscaled p-value `pv`. -/
theorem claim_C5_scaled_result (a b : TestStatistic) (c : FrequentistConfig)
    (ci : ℝ × ℝ) (pv : ℝ)
    (hdt : c.difference_type = "scaled")
    (hm : a.mean ≠ 0) (hu : a.unadjusted_mean ≠ 0)
    (hva : 0 < a.variance) (hvb : 0 < b.variance)
    (hp : c.traffic_proportion_b ≠ 0) (hd : c.phase_length_days ≠ 0) :
    compute_result a b c ci pv =
      some ⟨TTest.point_estimate a b c
          * (b.n / c.traffic_proportion_b / c.phase_length_days),
        (ci.1 * (b.n / c.traffic_proportion_b / c.phase_length_days),
         ci.2 * (b.n / c.traffic_proportion_b / c.phase_length_days)),
        pv,
        ⟨"normal",
          TTest.point_estimate a b c
            * (b.n / c.traffic_proportion_b / c.phase_length_days),
          Real.sqrt (TTest.variance a b c)
            * (b.n / c.traffic_proportion_b / c.phase_length_days)⟩,
        none⟩ := by
  have hsc : TTest.scaled c = true := by
    unfold TTest.scaled
    rw [hdt]
    decide
  have hna : ¬ a.variance ≤ 0 := not_le.mpr hva
  have hnb : ¬ b.variance ≤ 0 := not_le.mpr hvb
  simp [compute_result, hm, hu, hna, hnb, hsc, scale_result, pydiv, hp, hd]

/-- Witness for claim C5: the spec's end-to-end scenario — unscaled point
estimate 0.02 (= 1/50), `trafficProportionB = 0.5`, `phaseLengthDays = 10`,
`nB = 1000` — yields a scaled `expected` of exactly 4. -/
theorem claim_C5_witness :
    Option.map FrequentistTestResult.expected
      (compute_result ⟨1, 1, 1, 100⟩ ⟨51 / 50, 1, 1, 1000⟩
        ⟨1 / 20, 0, "scaled", 1 / 2, 10⟩ (1, 2) (1 / 2)) = some 4 := by
  rw [claim_C5_scaled_result ⟨1, 1, 1, 100⟩ ⟨51 / 50, 1, 1, 1000⟩
    ⟨1 / 20, 0, "scaled", 1 / 2, 10⟩ (1, 2) (1 / 2) rfl (by norm_num) (by norm_num)
    (by norm_num) (by norm_num) (by norm_num) (by norm_num)]
  have hrel : TTest.relative ⟨1 / 20, 0, "scaled", 1 / 2, 10⟩ = false := by decide
  simp [TTest.point_estimate, frequentist_diff, hrel]
  norm_num

/-- Claim C8: all returned p-values lie in [0,1] — the two-sided p-value
`2·(1 − F_t(|criticalValue|, dof))`, the two one-sided p-values, the
sequential p-value `min(1/evalue, 1)`, and the SRM p-value (on every call
that returns rather than raising).  The Student-t
CDF `tcdf` is assumed to take values in [0,1] and, at nonnegative
arguments, to be at least 1/2 (symmetry of the t distribution about 0);
the chi-squared survival function is assumed to take values in [0,1]. -/
theorem claim_C8_p_values_unit_interval
    (tcdf : ℝ → ℝ → ℝ) (chi2_sf : ℚ → ℕ → ℚ)
    (a b : TestStatistic) (c : FrequentistConfig) (sc : SequentialConfig)
    (users : List ℤ) (weights : List ℚ)
    (htr : ∀ x d, 0 ≤ tcdf x d ∧ tcdf x d ≤ 1)
    (htm : ∀ x d, 0 ≤ x → 1 / 2 ≤ tcdf x d)
    (hchi : ∀ x n, 0 ≤ chi2_sf x n ∧ chi2_sf x n ≤ 1) :
    (0 ≤ TwoSidedTTest.p_value tcdf a b c ∧
      TwoSidedTTest.p_value tcdf a b c ≤ 1) ∧
    (0 ≤ OneSidedTreatmentGreaterTTest.p_value tcdf a b c ∧
      OneSidedTreatmentGreaterTTest.p_value tcdf a b c ≤ 1) ∧
    (0 ≤ OneSidedTreatmentLesserTTest.p_value tcdf a b c ∧
      OneSidedTreatmentLesserTTest.p_value tcdf a b c ≤ 1) ∧
    (0 ≤ SequentialTwoSidedTTest.p_value a b sc ∧
      SequentialTwoSidedTTest.p_value a b sc ≤ 1) ∧
    (∀ q, check_srm chi2_sf users weights = some q → 0 ≤ q ∧ q ≤ 1) := by
  obtain ⟨h2l, h2u⟩ := htr |TTest.critical_value a b c| (TTest.dof a b)
  have h2m := htm |TTest.critical_value a b c| (TTest.dof a b) (abs_nonneg _)
  obtain ⟨h1l, h1u⟩ := htr (TTest.critical_value a b c) (TTest.dof a b)
  refine ⟨⟨?_, ?_⟩, ⟨?_, ?_⟩, ⟨?_, ?_⟩, ⟨?_, ?_⟩, ?_⟩
  · unfold TwoSidedTTest.p_value
    linarith
  · unfold TwoSidedTTest.p_value
    linarith
  · unfold OneSidedTreatmentGreaterTTest.p_value
    linarith
  · unfold OneSidedTreatmentGreaterTTest.p_value
    linarith
  · exact h1l
  · exact h1u
  · unfold SequentialTwoSidedTTest.p_value
    exact le_min
      (one_div_nonneg.mpr (div_nonneg (Real.exp_pos _).le (Real.sqrt_nonneg _)))
      zero_le_one
  · unfold SequentialTwoSidedTTest.p_value
    exact min_le_right _ _
  · intro q hq
    unfold check_srm at hq
    by_cases hs : users.sum = 0
    · rw [if_pos hs] at hq
      obtain rfl : (1 : ℚ) = q := Option.some.inj hq
      norm_num
    · rw [if_neg hs] at hq
      cases hsum : srm_chi2_sum weights.sum (users.sum : ℚ) (users.zip weights) with
      | none =>
        rw [hsum] at hq
        exact absurd hq (by simp)
      | some x =>
        rw [hsum] at hq
        obtain rfl := Option.some.inj hq
        exact hchi x _

/-- Witness for claim C8 at a concrete input, with the constant CDF 1/2
(which satisfies both CDF assumptions) and the constant survival function
0. -/
theorem claim_C8_witness :
    (0 ≤ TwoSidedTTest.p_value (fun _ _ => 1 / 2) ⟨1, 1, 1, 10⟩ ⟨1, 1, 1, 10⟩
        ⟨1 / 20, 0, "relative", 0, 0⟩ ∧
      TwoSidedTTest.p_value (fun _ _ => 1 / 2) ⟨1, 1, 1, 10⟩ ⟨1, 1, 1, 10⟩
        ⟨1 / 20, 0, "relative", 0, 0⟩ ≤ 1) ∧
    (0 ≤ OneSidedTreatmentGreaterTTest.p_value (fun _ _ => 1 / 2) ⟨1, 1, 1, 10⟩
        ⟨1, 1, 1, 10⟩ ⟨1 / 20, 0, "relative", 0, 0⟩ ∧
      OneSidedTreatmentGreaterTTest.p_value (fun _ _ => 1 / 2) ⟨1, 1, 1, 10⟩
        ⟨1, 1, 1, 10⟩ ⟨1 / 20, 0, "relative", 0, 0⟩ ≤ 1) ∧
    (0 ≤ OneSidedTreatmentLesserTTest.p_value (fun _ _ => 1 / 2) ⟨1, 1, 1, 10⟩
        ⟨1, 1, 1, 10⟩ ⟨1 / 20, 0, "relative", 0, 0⟩ ∧
      OneSidedTreatmentLesserTTest.p_value (fun _ _ => 1 / 2) ⟨1, 1, 1, 10⟩
        ⟨1, 1, 1, 10⟩ ⟨1 / 20, 0, "relative", 0, 0⟩ ≤ 1) ∧
    (0 ≤ SequentialTwoSidedTTest.p_value ⟨1, 1, 1, 10⟩ ⟨1, 1, 1, 10⟩
        ⟨⟨1 / 20, 0, "relative", 0, 0⟩, 5000⟩ ∧
      SequentialTwoSidedTTest.p_value ⟨1, 1, 1, 10⟩ ⟨1, 1, 1, 10⟩
        ⟨⟨1 / 20, 0, "relative", 0, 0⟩, 5000⟩ ≤ 1) ∧
    (∀ q, check_srm (fun _ _ => 0) [1] [1] = some q → 0 ≤ q ∧ q ≤ 1) :=
  claim_C8_p_values_unit_interval (fun _ _ => 1 / 2) (fun _ _ => 0)
    ⟨1, 1, 1, 10⟩ ⟨1, 1, 1, 10⟩ ⟨1 / 20, 0, "relative", 0, 0⟩
    (⟨⟨1 / 20, 0, "relative", 0, 0⟩, 5000⟩ : SequentialConfig) [1] [1]
    (fun _ _ => ⟨by norm_num, by norm_num⟩)
    (fun _ _ _ => by norm_num)
    (fun _ _ => ⟨le_refl 0, by norm_num⟩)

/-- The spec's mixture bandwidth parameter, written from the spec text
(§4.3): `rho = sqrt((−2·ln(α) + ln(1 − 2·ln(α))) / tuningParameter)`. -/
noncomputable def spec_sequential_rho (alpha tuning : ℝ) : ℝ :=
  Real.sqrt ((-2 * Real.log alpha + Real.log (1 - 2 * Real.log alpha)) / tuning)

/-- The spec's confidence-sequence half-width, written from the spec text
(§4.3): `sqrt(pooledVariance·N) · sqrt(2·(N·rho² + 1)·ln(sqrt(N·rho² + 1)/α)
/ (N·rho)²)` with `N = nA + nB`. -/
noncomputable def spec_sequential_width (a b : TestStatistic)
    (c : SequentialConfig) : ℝ :=
  Real.sqrt (TTest.variance a b c.toFrequentistConfig * (a.n + b.n)) *
    Real.sqrt (2 * ((a.n + b.n)
        * spec_sequential_rho c.alpha c.sequential_tuning_parameter ^ 2 + 1)
      * Real.log (Real.sqrt ((a.n + b.n)
          * spec_sequential_rho c.alpha c.sequential_tuning_parameter ^ 2 + 1)
        / c.alpha)
      / ((a.n + b.n)
          * spec_sequential_rho c.alpha c.sequential_tuning_parameter) ^ 2)

/-- Claim C9: the sequential test's confidence interval equals
`pointEstimate ± width` where `width` and `rho` are exactly the spec's
confidence-sequence formulas (`spec_sequential_width`,
`spec_sequential_rho`). -/
theorem claim_C9_sequential_ci (a b : TestStatistic) (c : SequentialConfig) :
    SequentialTwoSidedTTest.confidence_interval a b c =
      (TTest.point_estimate a b c.toFrequentistConfig
          - spec_sequential_width a b c,
       TTest.point_estimate a b c.toFrequentistConfig
          + spec_sequential_width a b c) := by
  have hrho : SequentialTwoSidedTTest.rho c.alpha c.sequential_tuning_parameter =
      spec_sequential_rho c.alpha c.sequential_tuning_parameter := by
    unfold SequentialTwoSidedTTest.rho spec_sequential_rho
    ring_nf
  unfold SequentialTwoSidedTTest.confidence_interval spec_sequential_width
  rw [hrho]
